import Mathlib

/-!
Verification of the serialization adapter in
`notebooks/pickling-and-fasttext-models.ipynb` (repository
`jaminsore/linked-in-posts`).

The notebook defines `PicklableFastText`, a subclass of the fasttext native
model handle, with four operations:

  * `from_pretrained` (the spec's `adopt`): a state-preserving conversion of
    an existing native handle into an adapter-typed object
    (`self.__dict__.update(model.__dict__)`);
  * `load` (the spec's `reconstruct`): dispatches on its argument — an
    existing path is handed to `fasttext.load_model` and the result adopted;
    a byte sequence is written to `model.bin` inside a fresh scoped temporary
    directory and `load` recurses on that path; anything else raises
    `FileNotFoundError(saved_model)`;
  * `serialize` (the spec's `capture`): saves the model with the library's
    `save_model` into a fresh scoped temporary directory and returns the
    file's bytes;
  * `__reduce__` (the spec's `get_reduction`): returns
    `(self.load, (self.serialize(),))`.

It also defines `FastTextTransformer.transform`, which promotes its input
with `np.atleast_1d`, rejects input whose dimensionality is not 1 with a
`ValueError` naming the received dimensionality, and otherwise maps
`get_sentence_vector` over the flat sequence.

The embedding below is a state-passing translation.  The filesystem is an
association list from structured paths (lists of components, mirroring
`pathlib.Path(d) / filename`) to byte sequences.  `tempfile`'s fresh-name
generation is modelled by a counter; freshness of the generated directory
with respect to the pre-existing filesystem is the precondition `tempfile`
guarantees.  A log of mutating filesystem events makes "performs no
filesystem writes" claims statable.  The wrapped fasttext library is opaque
third-party code, so it is a parameter: `save_model` gives the bytes the
native save routine writes at the requested path, `load_model` gives the
model the native load routine builds from the file's content (`none` is an
upstream native failure, propagated unmodified), and `get_sentence_vector`
is the query/inference operation.
-/

/-- A filesystem path, as its list of components (`pathlib.Path(d) / f`). -/
abbrev FilePath := List String

/-- The content of a file: a byte sequence. -/
abbrev Bytes := List Nat

/-- The filesystem: an association list from paths to file contents.
Later writes shadow earlier ones. -/
abbrev FS := List (FilePath × Bytes)

/-- Look up the content of the file at `p`, if present. -/
def FS.lookup : FS → FilePath → Option Bytes
  | [], _ => none
  | (q, b) :: rest, p => if q = p then some b else FS.lookup rest p

/-- `pathlib.Path(p).exists()`. -/
def FS.isFile (fs : FS) (p : FilePath) : Bool :=
  (FS.lookup fs p).isSome

/-- `pathlib.Path(p).read_bytes()` (defaulting to `[]`; every use in the
source is guarded by existence of the file). -/
def FS.read (fs : FS) (p : FilePath) : Bytes :=
  (FS.lookup fs p).getD []

/-- `p` lies inside directory `d`. -/
def pathUnder (d p : FilePath) : Bool :=
  List.isPrefixOf d p

/-- Mutating filesystem operations, recorded so that "performs no
filesystem writes" is statable. -/
inductive FsEvent where
  /-- `tempfile.TemporaryDirectory()` created directory `d`. -/
  | mkdtemp (d : FilePath)
  /-- `write_bytes` / the native `save_model` wrote `b` at `p`. -/
  | write (p : FilePath) (b : Bytes)
  /-- the `TemporaryDirectory` context exit removed directory `d`. -/
  | rmtree (d : FilePath)
  deriving DecidableEq, Repr

/-- The ambient state threaded through every operation: the filesystem, the
`tempfile` fresh-name counter, and the log of mutating events. -/
structure St where
  fs : FS
  ctr : Nat
  log : List FsEvent
  deriving DecidableEq, Repr

/-- The name `tempfile` gives to the `n`-th temporary directory. -/
def tmpDirName (n : Nat) : FilePath :=
  ["tmp", "tmp" ++ toString n]

/-- `tempfile.TemporaryDirectory()` entry: yields a fresh directory name and
advances the fresh-name counter. -/
def St.mkdtemp (st : St) : FilePath × St :=
  (tmpDirName st.ctr,
   { fs := st.fs, ctr := st.ctr + 1, log := st.log ++ [.mkdtemp (tmpDirName st.ctr)] })

/-- `write_bytes` (also the native `save_model`'s write): record the file. -/
def St.write (st : St) (p : FilePath) (b : Bytes) : St :=
  { st with fs := (p, b) :: st.fs, log := st.log ++ [.write p b] }

/-- `TemporaryDirectory` context exit: remove everything under `d`.  This
runs on every exit path, normal return or propagated exception. -/
def St.rmtree (st : St) (d : FilePath) : St :=
  { st with fs := st.fs.filter (fun e => ! pathUnder d e.1), log := st.log ++ [.rmtree d] }

/-- The wrapped fasttext library boundary (third-party compiled code, used
through exactly three operations).  `save_model` is the content the native
save-to-path routine writes; `load_model` is the handle the native
load-from-path routine builds from a file's content, `none` being an
upstream native failure; `get_sentence_vector` is the inference query. -/
structure NativeLib (M : Type) where
  save_model : M → Bytes
  load_model : Bytes → Option M
  get_sentence_vector : M → String → List Int

/-- The adapter type: `PicklableFastText` extends the native handle, and
`from_pretrained` copies the handle's whole `__dict__` into it, so its state
is exactly a native handle's state. -/
structure PicklableFastText (M : Type) where
  state : M
  deriving DecidableEq, Repr

/-- `cls._tmp_filename = "model.bin"`. -/
def PicklableFastText.tmp_filename : String := "model.bin"

/-- `from_pretrained`: `self = cls.__new__(cls); self.__dict__.update(model.__dict__)`.
No training or loading routine is invoked; the handle's state is copied. -/
def PicklableFastText.from_pretrained {M : Type} (model : M) : PicklableFastText M :=
  { state := model }

/-- A query on the adapter delegates to the underlying library's inference
operation on the adopted state (inherited method, used unchanged). -/
def PicklableFastText.query {M : Type} (lib : NativeLib M)
    (a : PicklableFastText M) (s : String) : List Int :=
  lib.get_sentence_vector a.state s

/-- The argument of `PicklableFastText.load`: `saved_model : bytes | str`. -/
inductive Source where
  | path (p : FilePath)
  | bytes (b : Bytes)
  deriving DecidableEq, Repr

/-- Errors surfaced by `load`: the locally synthesized
`FileNotFoundError(saved_model)`, and an upstream failure of the native
`load_model`, propagated unmodified. -/
inductive Err where
  | fileNotFound (src : Source)
  | nativeLoadFailure
  deriving DecidableEq, Repr

/-- Measure for `load`'s recursion: the byte branch recurses into the path
branch exactly once. -/
def Source.loadSize : Source → Nat
  | .path _ => 0
  | .bytes _ => 1

/-- `PicklableFastText.load`.  A path that exists is handed to
`fasttext.load_model` and the result adopted; a byte sequence is written to
`model.bin` inside a fresh scoped temporary directory and `load` recurses on
that path, the directory being removed on every exit path; a path that does
not exist raises `FileNotFoundError(saved_model)`. -/
def PicklableFastText.load {M : Type} (lib : NativeLib M) :
    Source → St → Except Err (PicklableFastText M) × St
  | .path p, st =>
    if FS.isFile st.fs p then
      match lib.load_model (FS.read st.fs p) with
      | some m => (.ok (PicklableFastText.from_pretrained m), st)
      | none => (.error .nativeLoadFailure, st)
    else
      (.error (.fileNotFound (.path p)), st)
  | .bytes b, st =>
    let (d, st1) := St.mkdtemp st
    let model_path := d ++ [PicklableFastText.tmp_filename]
    let st2 := St.write st1 model_path b
    let (res, st3) := PicklableFastText.load lib (.path model_path) st2
    (res, St.rmtree st3 d)
termination_by src _ => src.loadSize
decreasing_by simp [Source.loadSize]

/-- `PicklableFastText.serialize`: save the model into a fresh scoped
temporary directory with the native `save_model`, read the file back, and
return its bytes; the directory is removed on exit.  The adapter value is
threaded through to state the frame condition. -/
def PicklableFastText.serialize {M : Type} (lib : NativeLib M)
    (a : PicklableFastText M) (st : St) : Bytes × PicklableFastText M × St :=
  let (d, st1) := St.mkdtemp st
  let model_path := d ++ [PicklableFastText.tmp_filename]
  let st2 := St.write st1 model_path (lib.save_model a.state)
  (FS.read st2.fs model_path, a, St.rmtree st2 d)

/-- The callable reference in the first slot of `__reduce__`'s result:
`self.load`, a reference to the `load` classmethod. -/
inductive ReduceFn where
  | load
  deriving DecidableEq, Repr

/-- The value `__reduce__` returns: a callable reference and the argument
tuple it is to be called with. -/
structure Reduction where
  fn : ReduceFn
  args : List Bytes
  deriving DecidableEq, Repr

/-- `__reduce__`: `return self.load, (self.serialize(),)`. -/
def PicklableFastText.reduce {M : Type} (lib : NativeLib M)
    (a : PicklableFastText M) (st : St) : Reduction × PicklableFastText M × St :=
  let (b, a1, st1) := PicklableFastText.serialize lib a st
  ({ fn := .load, args := [b] }, a1, st1)

/-- A numpy array of strings, by its shape and flat data
(`ndim = shape.length`). -/
structure NpArray where
  shape : List Nat
  flat : List String
  deriving DecidableEq, Repr

/-- `arr.ndim`. -/
def NpArray.ndim (X : NpArray) : Nat := X.shape.length

/-- `np.atleast_1d`: a 0-dimensional (scalar) input is promoted to shape
`(1,)`; anything else is returned unchanged. -/
def atleast_1d (X : NpArray) : NpArray :=
  if X.ndim = 0 then { shape := [1], flat := X.flat } else X

/-- The error `FastTextTransformer.transform` raises on input that is not
1-dimensional: a `ValueError` naming the received dimensionality. -/
inductive TransformErr where
  | valueError (ndim : Nat)
  deriving DecidableEq, Repr

/-- The transformer: holds a fasttext model handle (`self.model`). -/
structure FastTextTransformer (M : Type) where
  model : M
  deriving DecidableEq, Repr

/-- `FastTextTransformer.fit`: a no-op returning `self`. -/
def FastTextTransformer.fit {M : Type} (t : FastTextTransformer M) :
    FastTextTransformer M := t

/-- `FastTextTransformer.transform`: promote with `np.atleast_1d`, reject
non-1-dimensional input with a `ValueError` naming the received
dimensionality, otherwise map `get_sentence_vector` over the flat list.
The second component records the sentences actually passed to the
underlying model. -/
def FastTextTransformer.transform {M : Type} (lib : NativeLib M)
    (t : FastTextTransformer M) (X : NpArray) :
    Except TransformErr (List (List Int)) × List String :=
  let text := atleast_1d X
  if text.ndim ≠ 1 then
    (.error (.valueError text.ndim), [])
  else
    (.ok (text.flat.map (fun s => lib.get_sentence_vector t.model s)), text.flat)

/-- A concrete instantiation of the wrapped-library boundary, used to
evaluate the theorems at concrete inputs: the handle is a number, saved as
the singleton byte sequence holding it. -/
def demoLib : NativeLib Nat where
  save_model m := [m]
  load_model b := match b with | [m] => some m | _ => none
  get_sentence_vector m s := [(m : Int) + (s.length : Int)]

/-- An empty starting state. -/
def st0 : St := { fs := [], ctr := 0, log := [] }

/-- A starting state with one saved model file (content `[7]`). -/
def stA : St := { fs := [(["m"], [7])], ctr := 0, log := [] }

/-- Freshness of the next temporary-directory name with respect to the
current filesystem: the guarantee `tempfile`'s fresh-name generation
provides for every call. -/
def freshTmp (st : St) : Prop :=
  ∀ e ∈ st.fs, pathUnder (tmpDirName st.ctr) e.1 = false

instance (st : St) : Decidable (freshTmp st) :=
  inferInstanceAs (Decidable (∀ e ∈ st.fs, pathUnder (tmpDirName st.ctr) e.1 = false))

/-! Helper lemmas about the filesystem model. -/

/-- Looking up a just-written file finds the written bytes. -/
@[simp] theorem FS.lookup_cons_self (fs : FS) (p : FilePath) (b : Bytes) :
    FS.lookup ((p, b) :: fs) p = some b := by
  simp [FS.lookup]

/-- A just-written file exists. -/
@[simp] theorem FS.isFile_cons_self (fs : FS) (p : FilePath) (b : Bytes) :
    FS.isFile ((p, b) :: fs) p = true := by
  simp [FS.isFile]

/-- Reading a just-written file yields the written bytes. -/
@[simp] theorem FS.read_cons_self (fs : FS) (p : FilePath) (b : Bytes) :
    FS.read ((p, b) :: fs) p = b := by
  simp [FS.read]

/-- A file inside a directory is under that directory. -/
@[simp] theorem pathUnder_append (d l : FilePath) :
    pathUnder d (d ++ l) = true := by
  simp [pathUnder]

/-- Removing everything under `d` leaves a filesystem with nothing under `d`
unchanged. -/
theorem filter_notUnder_of_fresh (d : FilePath) (fs : FS)
    (hf : ∀ e ∈ fs, pathUnder d e.1 = false) :
    fs.filter (fun e => ! pathUnder d e.1) = fs := by
  induction fs with
  | nil => rfl
  | cons e rest ih =>
    have he := hf e (List.mem_cons_self e rest)
    have hrest : ∀ x ∈ rest, pathUnder d x.1 = false :=
      fun x hx => hf x (List.mem_cons_of_mem e hx)
    simp [List.filter, he, ih hrest]

/-! Unfolding lemmas for the adapter operations. -/

/-- Defining equation of `load` on a path argument. -/
theorem load_path_def {M : Type} (lib : NativeLib M) (p : FilePath) (st : St) :
    PicklableFastText.load lib (.path p) st =
      if FS.isFile st.fs p then
        match lib.load_model (FS.read st.fs p) with
        | some m => (.ok (PicklableFastText.from_pretrained m), st)
        | none => (.error .nativeLoadFailure, st)
      else
        (.error (.fileNotFound (.path p)), st) := by
  rw [PicklableFastText.load]

/-- Defining equation of `load` on a byte-sequence argument. -/
theorem load_bytes_def {M : Type} (lib : NativeLib M) (b : Bytes) (st : St) :
    PicklableFastText.load lib (.bytes b) st =
      let d := tmpDirName st.ctr
      let model_path := d ++ [PicklableFastText.tmp_filename]
      let st2 := St.write { fs := st.fs, ctr := st.ctr + 1, log := st.log ++ [.mkdtemp d] }
                   model_path b
      let r := PicklableFastText.load lib (.path model_path) st2
      (r.1, St.rmtree r.2 d) := by
  rw [PicklableFastText.load]
  simp [St.mkdtemp]

/-- Closed form of `load` on a byte-sequence argument: one level of
recursion, resolving in the path branch on the just-written temporary file,
whose content is exactly the given bytes; the temporary directory is removed
from the filesystem afterwards. -/
theorem load_bytes_closed {M : Type} (lib : NativeLib M) (b : Bytes) (st : St) :
    PicklableFastText.load lib (.bytes b) st =
      ((match lib.load_model b with
        | some m => Except.ok (PicklableFastText.from_pretrained m)
        | none => Except.error Err.nativeLoadFailure),
       { fs := st.fs.filter (fun e => ! pathUnder (tmpDirName st.ctr) e.1),
         ctr := st.ctr + 1,
         log := st.log ++ [.mkdtemp (tmpDirName st.ctr),
                           .write (tmpDirName st.ctr ++ [PicklableFastText.tmp_filename]) b,
                           .rmtree (tmpDirName st.ctr)] }) := by
  rw [load_bytes_def]
  cases hm : lib.load_model b <;>
    simp [load_path_def, St.write, St.rmtree, hm, FS.isFile, FS.read]

/-- Closed form of `serialize`: the returned bytes are what the native save
routine wrote, the adapter is returned unchanged, and the temporary
directory is removed from the filesystem afterwards. -/
theorem serialize_def {M : Type} (lib : NativeLib M) (a : PicklableFastText M) (st : St) :
    PicklableFastText.serialize lib a st =
      (lib.save_model a.state, a,
       { fs := st.fs.filter (fun e => ! pathUnder (tmpDirName st.ctr) e.1),
         ctr := st.ctr + 1,
         log := st.log ++ [.mkdtemp (tmpDirName st.ctr),
                           .write (tmpDirName st.ctr ++ [PicklableFastText.tmp_filename])
                             (lib.save_model a.state),
                           .rmtree (tmpDirName st.ctr)] }) := by
  simp [PicklableFastText.serialize, St.mkdtemp, St.write, St.rmtree]

/-! The claims. -/

/-- C1: round-trip — reconstructing from the captured bytes of the adopted
handle (`load(from_pretrained(h).serialize())`) yields an adapter answering
every query as the original handle does, assuming the library's
save-then-load is behavior-preserving. -/
theorem c1_round_trip_equivalence {M : Type} (lib : NativeLib M) (h : M) (st st' : St)
    (hlib : ∀ m : M, ∃ m', lib.load_model (lib.save_model m) = some m'
              ∧ ∀ s, lib.get_sentence_vector m' s = lib.get_sentence_vector m s) :
    ∃ a' : PicklableFastText M,
      (PicklableFastText.load lib
          (.bytes (PicklableFastText.serialize lib (PicklableFastText.from_pretrained h) st).1)
          st').1 = .ok a'
      ∧ ∀ s, PicklableFastText.query lib a' s = lib.get_sentence_vector h s := by
  obtain ⟨m', hm', hq⟩ := hlib h
  refine ⟨PicklableFastText.from_pretrained m', ?_, ?_⟩
  · rw [serialize_def]
    rw [load_bytes_closed]
    simp [PicklableFastText.from_pretrained, hm']
  · intro s
    simpa [PicklableFastText.query, PicklableFastText.from_pretrained] using hq s

/-- C1 witness: the round trip at a concrete handle and library. -/
theorem c1_witness :
    ∃ a' : PicklableFastText Nat,
      (PicklableFastText.load demoLib
          (.bytes (PicklableFastText.serialize demoLib (PicklableFastText.from_pretrained 5) st0).1)
          st0).1 = .ok a'
      ∧ ∀ s, PicklableFastText.query demoLib a' s = demoLib.get_sentence_vector 5 s :=
  c1_round_trip_equivalence demoLib 5 st0 st0 (fun m => ⟨m, rfl, fun _ => rfl⟩)

/-- C2: for every adapter instance, `__reduce__` returns exactly the pair of
a reference to `load` and a one-element argument tuple whose sole element is
the byte sequence `serialize` produced. -/
theorem c2_reduce_pair {M : Type} (lib : NativeLib M) (a : PicklableFastText M) (st : St) :
    (PicklableFastText.reduce lib a st).1
      = { fn := ReduceFn.load, args := [(PicklableFastText.serialize lib a st).1] }
    ∧ (PicklableFastText.reduce lib a st).1.args = [lib.save_model a.state] := by
  constructor
  · simp [PicklableFastText.reduce]
  · simp [PicklableFastText.reduce, serialize_def]

/-- C3: dispatch of `load` — an existing path is delegated to the library's
native load routine and the result adopted; a byte sequence is written to a
temporary file inside a freshly created scoped temporary directory, and
`load` recurses into the path branch on that file's path. -/
theorem c3_load_dispatch {M : Type} (lib : NativeLib M) (st : St) :
    (∀ p, FS.isFile st.fs p = true →
      ∀ m, lib.load_model (FS.read st.fs p) = some m →
        PicklableFastText.load lib (.path p) st
          = (.ok (PicklableFastText.from_pretrained m), st))
    ∧ (∀ b, ∃ st2 : St,
        st2.fs = (tmpDirName st.ctr ++ [PicklableFastText.tmp_filename], b) :: st.fs
        ∧ st2.log = st.log ++ [.mkdtemp (tmpDirName st.ctr),
                               .write (tmpDirName st.ctr ++ [PicklableFastText.tmp_filename]) b]
        ∧ (PicklableFastText.load lib (.bytes b) st).1
            = (PicklableFastText.load lib
                (.path (tmpDirName st.ctr ++ [PicklableFastText.tmp_filename])) st2).1) := by
  constructor
  · intro p hex m hm
    rw [load_path_def, hex, hm]
    simp
  · intro b
    refine ⟨St.write { fs := st.fs, ctr := st.ctr + 1,
                       log := st.log ++ [.mkdtemp (tmpDirName st.ctr)] }
              (tmpDirName st.ctr ++ [PicklableFastText.tmp_filename]) b, ?_, ?_, ?_⟩
    · simp [St.write]
    · simp [St.write]
    · rw [load_bytes_def]

/-- C3 witness: at a concrete state holding one saved file, the path branch
adopts the natively loaded model, and the byte branch recurses through a
temporary file. -/
theorem c3_witness :
    PicklableFastText.load demoLib (.path ["m"]) stA
      = (.ok (PicklableFastText.from_pretrained 7), stA)
    ∧ ∃ st2 : St,
        st2.fs = (tmpDirName stA.ctr ++ [PicklableFastText.tmp_filename], [9]) :: stA.fs
        ∧ st2.log = stA.log ++ [.mkdtemp (tmpDirName stA.ctr),
                                .write (tmpDirName stA.ctr ++ [PicklableFastText.tmp_filename]) [9]]
        ∧ (PicklableFastText.load demoLib (.bytes [9]) stA).1
            = (PicklableFastText.load demoLib
                (.path (tmpDirName stA.ctr ++ [PicklableFastText.tmp_filename])) st2).1 :=
  ⟨(c3_load_dispatch demoLib stA).1 ["m"] (by decide) 7 (by decide),
   (c3_load_dispatch demoLib stA).2 [9]⟩

/-- C4: `load` on a path that names no existing file fails with the NotFound
error identifying that source and leaves the state — filesystem and write
log — exactly unchanged; and the locally synthesized NotFound error arises
only this way. -/
theorem c4_notfound {M : Type} (lib : NativeLib M) (st : St) :
    (∀ p, FS.isFile st.fs p = false →
        PicklableFastText.load lib (.path p) st
          = (.error (.fileNotFound (.path p)), st))
    ∧ (∀ src s, (PicklableFastText.load lib src st).1 = .error (.fileNotFound s) →
        ∃ p, src = .path p ∧ s = .path p ∧ FS.isFile st.fs p = false) := by
  constructor
  · intro p hne
    rw [load_path_def, hne]
    simp
  · intro src s herr
    cases src with
    | path p =>
      rw [load_path_def] at herr
      by_cases hex : FS.isFile st.fs p
      · rw [hex] at herr
        simp at herr
        cases hm : lib.load_model (FS.read st.fs p) <;> rw [hm] at herr <;> simp at herr
      · refine ⟨p, rfl, ?_, by simpa using hex⟩
        rw [Bool.not_eq_true] at hex
        rw [hex] at herr
        simp at herr
        exact herr.symm ▸ rfl
    | bytes b =>
      rw [load_bytes_closed] at herr
      cases hm : lib.load_model b <;> rw [hm] at herr <;> simp at herr

/-- C4 witness: loading a missing path from the empty filesystem fails with
NotFound naming that path and leaves the state untouched. -/
theorem c4_witness :
    PicklableFastText.load demoLib (.path ["gone"]) st0
      = (.error (.fileNotFound (.path ["gone"])), st0) :=
  (c4_notfound demoLib st0).1 ["gone"] (by decide)

/-- C5: adoption is a state-preserving shallow copy — the adapter built by
`from_pretrained` carries exactly the handle's state, no training or loading
routine being invoked, and every query on it answers as the same query on
the handle. -/
theorem c5_adoption_preserves_behavior {M : Type} (lib : NativeLib M) (h : M) :
    (PicklableFastText.from_pretrained h).state = h
    ∧ ∀ s, PicklableFastText.query lib (PicklableFastText.from_pretrained h) s
        = lib.get_sentence_vector h s :=
  ⟨rfl, fun _ => rfl⟩

/-- C6: `serialize` returns the adapter's own state unchanged, and the byte
sequence it returns is accepted by `load` whenever the library's own load
succeeds on what its save produced (which the wrapped library guarantees). -/
theorem c6_serialize_frame {M : Type} (lib : NativeLib M) (a : PicklableFastText M)
    (st : St) (m' : M) (hlib : lib.load_model (lib.save_model a.state) = some m') :
    (PicklableFastText.serialize lib a st).2.1 = a
    ∧ ∀ st' : St, (PicklableFastText.load lib
        (.bytes (PicklableFastText.serialize lib a st).1) st').1
        = .ok (PicklableFastText.from_pretrained m') := by
  constructor
  · rw [serialize_def]
  · intro st'
    rw [serialize_def, load_bytes_closed]
    simp [hlib]

/-- C6 witness: the frame condition and acceptance at a concrete adapter. -/
theorem c6_witness :
    (PicklableFastText.serialize demoLib { state := 5 } stA).2.1
      = ({ state := 5 } : PicklableFastText Nat)
    ∧ ∀ st' : St, (PicklableFastText.load demoLib
        (.bytes (PicklableFastText.serialize demoLib { state := 5 } stA).1) st').1
        = .ok (PicklableFastText.from_pretrained 5) :=
  c6_serialize_frame demoLib { state := 5 } stA 5 rfl

/-- C7: neither `load` (on any source, success or failure) nor `serialize`
leaves on the filesystem any trace of the temporary directory it created:
the final filesystem equals the initial one. -/
theorem c7_temporary_cleanup {M : Type} (lib : NativeLib M) (a : PicklableFastText M)
    (src : Source) (st : St) (hf : freshTmp st) :
    ((PicklableFastText.load lib src st).2).fs = st.fs
    ∧ ((PicklableFastText.serialize lib a st).2.2).fs = st.fs := by
  constructor
  · cases src with
    | path p =>
      rw [load_path_def]
      by_cases hex : FS.isFile st.fs p
      · rw [hex]
        cases hm : lib.load_model (FS.read st.fs p) <;> simp [hm]
      · rw [Bool.not_eq_true] at hex
        rw [hex]
        simp
    | bytes b =>
      rw [load_bytes_closed]
      exact filter_notUnder_of_fresh _ _ hf
  · rw [serialize_def]
    exact filter_notUnder_of_fresh _ _ hf

/-- C7 witness: concrete byte-sequence load and serialize calls on a
nonempty filesystem leave it exactly as it was. -/
theorem c7_witness :
    ((PicklableFastText.load demoLib (.bytes [9]) stA).2).fs = stA.fs
    ∧ ((PicklableFastText.serialize demoLib { state := 5 } stA).2.2).fs = stA.fs :=
  c7_temporary_cleanup demoLib { state := 5 } (.bytes [9]) stA (by decide)

/-- C8: two captures of the same unmodified adapter, independently
reconstructed, yield adapters with identical observable behavior on every
query. -/
theorem c8_idempotent_capture {M : Type} (lib : NativeLib M) (a : PicklableFastText M)
    (st : St) (m' : M) (hlib : lib.load_model (lib.save_model a.state) = some m') :
    ∀ st1 st2 : St, ∃ a1 a2 : PicklableFastText M,
      (PicklableFastText.load lib
          (.bytes (PicklableFastText.serialize lib a st).1) st1).1 = .ok a1
      ∧ (PicklableFastText.load lib
          (.bytes (PicklableFastText.serialize lib
              (PicklableFastText.serialize lib a st).2.1
              (PicklableFastText.serialize lib a st).2.2).1) st2).1 = .ok a2
      ∧ ∀ s, PicklableFastText.query lib a1 s = PicklableFastText.query lib a2 s := by
  intro st1 st2
  refine ⟨PicklableFastText.from_pretrained m', PicklableFastText.from_pretrained m', ?_, ?_,
    fun s => rfl⟩
  · rw [serialize_def, load_bytes_closed]
    simp [hlib]
  · rw [serialize_def, serialize_def, load_bytes_closed]
    simp [hlib]

/-- C8 witness: idempotent capture at a concrete adapter and library. -/
theorem c8_witness :
    ∃ a1 a2 : PicklableFastText Nat,
      (PicklableFastText.load demoLib
          (.bytes (PicklableFastText.serialize demoLib { state := 5 } st0).1) st0).1 = .ok a1
      ∧ (PicklableFastText.load demoLib
          (.bytes (PicklableFastText.serialize demoLib
              (PicklableFastText.serialize demoLib { state := 5 } st0).2.1
              (PicklableFastText.serialize demoLib { state := 5 } st0).2.2).1) stA).1 = .ok a2
      ∧ ∀ s, PicklableFastText.query demoLib a1 s = PicklableFastText.query demoLib a2 s :=
  c8_idempotent_capture demoLib { state := 5 } st0 5 rfl st0 stA

/-- C9: on input whose dimensionality after scalar promotion is not 1,
`transform` returns exactly the `ValueError` naming that dimensionality and
passes no sentence to the underlying model. -/
theorem c9_transform_rejects_multidim {M : Type} (lib : NativeLib M)
    (t : FastTextTransformer M) (X : NpArray) (hnd : (atleast_1d X).ndim ≠ 1) :
    FastTextTransformer.transform lib t X
      = (.error (.valueError (atleast_1d X).ndim), []) := by
  simp [FastTextTransformer.transform, hnd]

/-- C9 witness: a concrete 2-dimensional input is rejected with a
`ValueError` naming dimensionality 2. -/
theorem c9_witness :
    FastTextTransformer.transform demoLib { model := 3 }
        { shape := [2, 2], flat := ["a", "b", "c", "d"] }
      = (.error (.valueError 2), []) :=
  c9_transform_rejects_multidim demoLib { model := 3 }
    { shape := [2, 2], flat := ["a", "b", "c", "d"] } (by decide)

/-- C10: `load` on a byte-sequence source makes exactly one recursive call,
which resolves in the path branch on the just-written temporary file (the
function is total, so every call terminates); the locally synthesized
NotFound error is never raised for a byte-sequence source. -/
theorem c10_load_bytes_single_recursion {M : Type} (lib : NativeLib M) (b : Bytes) (st : St) :
    ((PicklableFastText.load lib (.bytes b) st).1
      = match lib.load_model b with
        | some m => Except.ok (PicklableFastText.from_pretrained m)
        | none => Except.error Err.nativeLoadFailure)
    ∧ ∀ s, (PicklableFastText.load lib (.bytes b) st).1 ≠ .error (.fileNotFound s) := by
  rw [load_bytes_closed]
  refine ⟨rfl, ?_⟩
  intro s
  cases hm : lib.load_model b <;> simp [hm]
